import Mathlib

/-!
Verification of the error-chain rendering core of `slog-error-chain`
(`src/lib.rs` and `src/nested_values.rs`).

The library renders a `std::error::Error` together with its chain of causes,
either inline (one string, causes separated by `": "`), or structured (a
serde sequence of display strings, one per chain element), with an owned
snapshot (`OwnedErrorChain`) for crossing thread boundaries.
-/

/-- An error value as the library's input contract requires: a display string
plus an optional direct cause (`std::error::Error`: `Display` and
`source() -> Option<&dyn Error>`). `root d` is an error displaying `d` with
no cause; `cons d s` is an error displaying `d` whose cause is `s`. The
inductive structure makes every cause chain acyclic and finite, which is the
library's documented caller precondition. -/
inductive Err : Type where
  | root (display : String)
  | cons (display : String) (source : Err)

/-- The error's own display string (what `format!("{e}")` prints for the
error alone, not the chain). -/
def Err.display : Err → String
  | .root d => d
  | .cons d _ => d

/-- `Error::source()`: the optional direct cause. -/
def Err.source : Err → Option Err
  | .root _ => none
  | .cons _ s => some s

/-- The chain `e, cause(e), cause(cause(e)), …` from the root to the deepest
cause, in order. -/
def Err.chain : Err → List Err
  | .root d => [.root d]
  | .cons d s => .cons d s :: s.chain

/-- A serde sequence serialization, observed at the serializer boundary: the
length passed to `serialize_seq` and the string elements passed to
`serialize_element`, in order. -/
structure SerializedSeq where
  declaredLen : Option Nat
  elements : List String
deriving DecidableEq

/-- One emission into a `slog::Serializer`: either `emit_arguments` (a key
and a formatted string) or `emit_serde` (a key and a value serializing to a
sequence of strings). -/
inductive Emission : Type where
  | arguments (key : String) (value : String)
  | serde (key : String) (value : SerializedSeq)
deriving DecidableEq

/-- The key of an emission. -/
def Emission.key : Emission → String
  | .arguments k _ => k
  | .serde k _ => k

/-- `InlineErrorChain` (lib.rs:28): a wrapper holding a reference to the
root error. -/
structure InlineErrorChain where
  err : Err

/-- `InlineErrorChain::new` (lib.rs:32-34). -/
def InlineErrorChain.new (e : Err) : InlineErrorChain :=
  ⟨e⟩

/-- The while-loop of `impl fmt::Display for InlineErrorChain`
(lib.rs:68-72), with the cursor one step behind: given the error whose
`source()` is the loop's current `cause`, write `": {source}"` into the
formatter buffer for each remaining cause. -/
def inlineWriteCauses : Err → String → String
  | .root _, buf => buf
  | .cons _ s, buf => inlineWriteCauses s (buf ++ ": " ++ s.display)

/-- `impl fmt::Display for InlineErrorChain` (lib.rs:65-75): write the root
error's display string, then every cause preceded by `": "`, threading the
formatter buffer. -/
def InlineErrorChain.fmt (c : InlineErrorChain) (buf : String) : String :=
  inlineWriteCauses c.err (buf ++ c.err.display)

/-- `InlineErrorChain::to_string()`: the `Display` output, formatted into an
empty buffer. -/
def InlineErrorChain.render (c : InlineErrorChain) : String :=
  c.fmt ""

/-- `impl KV for InlineErrorChain` (lib.rs:37-52): emits the formatted chain
under the fixed key `"error"` via `emit_arguments`. -/
def InlineErrorChain.kv (c : InlineErrorChain) : Emission :=
  .arguments "error" c.render

/-- `OwnedErrorChain` (nested_values.rs:27-30): the root's display string
plus the display strings of all causes. -/
structure OwnedErrorChain where
  first : String
  rest : List String
deriving DecidableEq

/-- The while-loop of `OwnedErrorChain::new` (nested_values.rs:35-40), with
the cursor one step behind: push each cause's display string onto `causes`
in order. -/
def ownedCollectCauses : Err → List String → List String
  | .root _, causes => causes
  | .cons _ s, causes => ownedCollectCauses s (causes ++ [s.display])

/-- `OwnedErrorChain::new` (nested_values.rs:32-43): eagerly walk the chain,
collecting the causes' display strings. -/
def OwnedErrorChain.new (e : Err) : OwnedErrorChain :=
  { first := e.display, rest := ownedCollectCauses e [] }

/-- `impl fmt::Display for OwnedErrorChain` (nested_values.rs:45-53): write
`first`, then each element of `rest` preceded by `": "`, threading the
formatter buffer. -/
def OwnedErrorChain.fmt (c : OwnedErrorChain) (buf : String) : String :=
  c.rest.foldl (fun acc s => acc ++ ": " ++ s) (buf ++ c.first)

/-- `OwnedErrorChain::to_string()`: the `Display` output. -/
def OwnedErrorChain.render (c : OwnedErrorChain) : String :=
  c.fmt ""

/-- `impl Serialize for OwnedErrorChain` (nested_values.rs:55-67): a
sequence with declared length `1 + rest.len()`, serializing `first` and then
each element of `rest`. -/
def OwnedErrorChain.serializeSeq (c : OwnedErrorChain) : SerializedSeq :=
  { declaredLen := some (1 + c.rest.length),
    elements := c.rest.foldl (fun acc s => acc ++ [s]) [c.first] }

/-- `impl KV for OwnedErrorChain` (nested_values.rs:69-78): emits the
serialized sequence under the fixed key `"error"` via `emit_serde`. -/
def OwnedErrorChain.kv (c : OwnedErrorChain) : Emission :=
  .serde "error" c.serializeSeq

/-- `SerdeValue::serialize_fallback` for `OwnedErrorChain`
(nested_values.rs:100-106): emits the `Display` output under the given key
via `emit_arguments`. -/
def OwnedErrorChain.serializeFallback (c : OwnedErrorChain) (key : String) : Emission :=
  .arguments key c.render

/-- `ArrayErrorChain` (nested_values.rs:116): a wrapper holding a reference
to the root error. -/
structure ArrayErrorChain where
  err : Err

/-- `ArrayErrorChain::new` (nested_values.rs:118-123). -/
def ArrayErrorChain.new (e : Err) : ArrayErrorChain :=
  ⟨e⟩

/-- `impl fmt::Display for ArrayErrorChain` (nested_values.rs:125-129):
delegates to `InlineErrorChain`'s `Display`. -/
def ArrayErrorChain.fmt (c : ArrayErrorChain) (buf : String) : String :=
  (InlineErrorChain.new c.err).fmt buf

/-- `ArrayErrorChain::to_string()`: the `Display` output. -/
def ArrayErrorChain.render (c : ArrayErrorChain) : String :=
  c.fmt ""

/-- The while-loop of `impl Serialize for ArrayErrorChain`
(nested_values.rs:138-142), with the cursor one step behind: serialize each
cause's display string as a further sequence element. -/
def arraySerializeCauses : Err → List String → List String
  | .root _, elems => elems
  | .cons _ s, elems => arraySerializeCauses s (elems ++ [s.display])

/-- `impl Serialize for ArrayErrorChain` (nested_values.rs:131-145): a
sequence with no declared length, serializing the root's display string and
then each cause's display string. -/
def ArrayErrorChain.serializeSeq (c : ArrayErrorChain) : SerializedSeq :=
  { declaredLen := none,
    elements := arraySerializeCauses c.err [c.err.display] }

/-- `impl KV for ArrayErrorChain` (nested_values.rs:147-156): emits the
serialized sequence under the fixed key `"error"` via `emit_serde`. -/
def ArrayErrorChain.kv (c : ArrayErrorChain) : Emission :=
  .serde "error" c.serializeSeq

/-- `SerdeValue::to_sendable` for `ArrayErrorChain`
(nested_values.rs:174-176): builds the owned snapshot. -/
def ArrayErrorChain.toSendable (c : ArrayErrorChain) : OwnedErrorChain :=
  OwnedErrorChain.new c.err

/-- `SerdeValue::serialize_fallback` for `ArrayErrorChain`
(nested_values.rs:178-184): emits the `Display` output under the given key
via `emit_arguments`. -/
def ArrayErrorChain.serializeFallback (c : ArrayErrorChain) (key : String) : Emission :=
  .arguments key c.render

/-- The spec's join: the given strings joined by the separator, in order,
with no leading or trailing separator. -/
def specJoin (sep : String) : List String → String
  | [] => ""
  | [a] => a
  | a :: b :: rest => a ++ sep ++ specJoin sep (b :: rest)

/-- The chain walk as the spec describes it: advance the cursor `n` times
through the `source` relation. -/
def sourceIterate : Option Err → Nat → Option Err
  | s, 0 => s
  | none, _ + 1 => none
  | some e, n + 1 => sourceIterate e.source n

/-- Number of chain elements the walk visits before reaching `none`. -/
def Err.walkSteps : Err → Nat
  | .root _ => 1
  | .cons _ s => s.walkSteps + 1

/-- Writing into a formatter that already holds `a ++ b` appends exactly what
writing into a formatter holding `b` would append. -/
theorem inlineWriteCauses_append (e : Err) (a b : String) :
    inlineWriteCauses e (a ++ b) = a ++ inlineWriteCauses e b := by
  induction e generalizing a b with
  | root d => rfl
  | cons d s ih =>
    simp only [inlineWriteCauses, String.append_assoc, ih]

/-- The inline formatter appends its rendering after any prior buffer
contents. -/
theorem inline_fmt_eq (e : Err) (buf : String) :
    (InlineErrorChain.new e).fmt buf = buf ++ (InlineErrorChain.new e).render := by
  have h := inlineWriteCauses_append e buf e.display
  simpa [InlineErrorChain.fmt, InlineErrorChain.render, InlineErrorChain.new] using h

/-- The inline rendering recurrence at a `cons`. -/
theorem inline_render_cons (d : String) (s : Err) :
    (InlineErrorChain.new (.cons d s)).render =
      d ++ ": " ++ (InlineErrorChain.new s).render := by
  show inlineWriteCauses s (("" ++ d) ++ ": " ++ s.display) = _
  rw [String.empty_append, String.append_assoc]
  rw [inlineWriteCauses_append s d (": " ++ s.display)]
  show _ = d ++ ": " ++ inlineWriteCauses s ("" ++ s.display)
  rw [String.empty_append, String.append_assoc]
  have h := inlineWriteCauses_append s ": " s.display
  rw [h]

/-- The inline rendering of a root error is its display string. -/
theorem inline_render_root (d : String) :
    (InlineErrorChain.new (.root d)).render = d := by
  show "" ++ d = d
  rw [String.empty_append]

/-- The display strings of a chain always start with the root's display
string. -/
theorem chain_map_display_cons (s : Err) :
    s.chain.map Err.display =
      s.display :: (s.chain.map Err.display).tail := by
  cases s <;> simp [Err.chain, Err.display]

/-- The inline rendering is the chain's display strings joined by `": "`. -/
theorem inline_render_eq_specJoin (e : Err) :
    (InlineErrorChain.new e).render = specJoin ": " (e.chain.map Err.display) := by
  induction e with
  | root d => exact inline_render_root d
  | cons d s ih =>
    rw [inline_render_cons, ih, show (Err.cons d s).chain = Err.cons d s :: s.chain from rfl,
      List.map_cons, chain_map_display_cons s]
    rfl

/-- The cause-collecting loop appends after any prior accumulator contents. -/
theorem ownedCollectCauses_append (e : Err) (acc : List String) :
    ownedCollectCauses e acc = acc ++ ownedCollectCauses e [] := by
  induction e generalizing acc with
  | root d => simp [ownedCollectCauses]
  | cons d s ih =>
    rw [ownedCollectCauses, ownedCollectCauses, ih (acc ++ [s.display]),
      ih ([] ++ [s.display])]
    simp

/-- The collected cause strings are the chain's display strings minus the
root. -/
theorem ownedCollectCauses_eq_chain (e : Err) :
    e.display :: ownedCollectCauses e [] = e.chain.map Err.display := by
  induction e with
  | root d => simp [ownedCollectCauses, Err.chain, Err.display]
  | cons d s ih =>
    rw [show (Err.cons d s).display = d from rfl, show (Err.cons d s).chain =
      Err.cons d s :: s.chain from rfl, List.map_cons,
      show (Err.cons d s).display = d from rfl]
    rw [← ih, ownedCollectCauses, ownedCollectCauses_append s ([] ++ [s.display])]
    simp

/-- The array-serializing loop is the same traversal as the owned
cause-collecting loop. -/
theorem arraySerializeCauses_eq_owned (e : Err) (acc : List String) :
    arraySerializeCauses e acc = ownedCollectCauses e acc := by
  induction e generalizing acc with
  | root d => rfl
  | cons d s ih => simpa [arraySerializeCauses, ownedCollectCauses] using ih _

/-- Folding element pushes over a list appends the list. -/
theorem foldl_push_eq (l init : List String) :
    l.foldl (fun acc s => acc ++ [s]) init = init ++ l := by
  induction l generalizing init with
  | nil => simp
  | cons x xs ih => simp [ih]

/-- The owned snapshot serializes to `first` followed by `rest`. -/
theorem owned_serializeSeq_elements (c : OwnedErrorChain) :
    c.serializeSeq.elements = c.first :: c.rest := by
  simp [OwnedErrorChain.serializeSeq, foldl_push_eq]

/-- The structured elements of the borrowed view are the chain's display
strings. -/
theorem array_serializeSeq_elements (e : Err) :
    (ArrayErrorChain.new e).serializeSeq.elements = e.chain.map Err.display := by
  show arraySerializeCauses e [e.display] = _
  rw [arraySerializeCauses_eq_owned, ownedCollectCauses_append e [e.display]]
  simpa using ownedCollectCauses_eq_chain e

/-- The structured elements of the owned snapshot are the chain's display
strings. -/
theorem owned_new_serializeSeq_elements (e : Err) :
    (OwnedErrorChain.new e).serializeSeq.elements = e.chain.map Err.display := by
  rw [owned_serializeSeq_elements]
  exact ownedCollectCauses_eq_chain e

/-- The separator fold appends after any prior buffer contents. -/
theorem foldl_sep_append (l : List String) (a init : String) :
    l.foldl (fun acc s => acc ++ ": " ++ s) (a ++ init) =
      a ++ l.foldl (fun acc s => acc ++ ": " ++ s) init := by
  induction l generalizing init with
  | nil => rfl
  | cons x xs ih =>
    have h : (a ++ init) ++ ": " ++ x = a ++ (init ++ ": " ++ x) := by
      simp [String.append_assoc]
    rw [List.foldl_cons, List.foldl_cons, h]
    exact ih (init ++ ": " ++ x)

/-- The spec's join of a nonempty list computed as the owned `Display`
loop's fold. -/
theorem specJoin_eq_foldl (l : List String) (x : String) :
    specJoin ": " (x :: l) = l.foldl (fun acc s => acc ++ ": " ++ s) x := by
  induction l generalizing x with
  | nil => rfl
  | cons y ys ih =>
    rw [specJoin, ih]
    simp only [List.foldl_cons]
    rw [show x ++ ": " ++ y = (x ++ ": ") ++ y from by rw [String.append_assoc],
      foldl_sep_append ys (x ++ ": ") y, String.append_assoc]

/-- The owned `Display` loop appends after any prior buffer contents. -/
theorem owned_fmt_eq (c : OwnedErrorChain) (buf : String) :
    c.fmt buf = buf ++ c.render := by
  show c.rest.foldl _ (buf ++ c.first) = buf ++ c.rest.foldl _ ("" ++ c.first)
  rw [String.empty_append, foldl_sep_append]

/-- The owned rendering is `first :: rest` joined by `": "`. -/
theorem owned_render_eq_specJoin (c : OwnedErrorChain) :
    c.render = specJoin ": " (c.first :: c.rest) := by
  rw [specJoin_eq_foldl]
  show c.rest.foldl _ ("" ++ c.first) = _
  rw [String.empty_append]

/-- Iterating the `source` relation starting at `e` reaches `none` after
exactly as many steps as the chain has elements. -/
theorem sourceIterate_chain_length (e : Err) :
    sourceIterate (some e) e.chain.length = none := by
  induction e with
  | root d => rfl
  | cons d s ih => simpa [Err.chain, sourceIterate, Err.source] using ih

/-- The walk's step count is the chain length. -/
theorem walkSteps_eq_chain_length (e : Err) :
    e.walkSteps = e.chain.length := by
  induction e with
  | root d => rfl
  | cons d s ih => simp [Err.walkSteps, Err.chain, ih]

/-- The last element of any chain has no cause, for any default. -/
theorem chain_getLastD_source (e : Err) : ∀ d : Err, (e.chain.getLastD d).source = none := by
  induction e with
  | root d0 => intro d; rfl
  | cons d0 s ih =>
    intro d
    rw [show (Err.cons d0 s).chain = Err.cons d0 s :: s.chain from rfl,
      List.getLastD_cons]
    exact ih (Err.cons d0 s)

/-- C1: inline rendering satisfies the recurrence — an error with no cause
renders as its display string alone, and an error with a cause renders as
its display string, then `": "`, then the rendering of the cause — and for
every acyclic chain it equals the chain's display strings joined by `": "`
with no leading or trailing separator; in particular a chain of length 1
renders as exactly the root's display string. -/
theorem inline_render_recurrence_and_join (e : Err) :
    ((InlineErrorChain.new e).render =
      match e.source with
      | none => e.display
      | some c => e.display ++ ": " ++ (InlineErrorChain.new c).render) ∧
    (InlineErrorChain.new e).render = specJoin ": " (e.chain.map Err.display) := by
  refine ⟨?_, inline_render_eq_specJoin e⟩
  cases e with
  | root d => exact inline_render_root d
  | cons d s => exact inline_render_cons d s

/-- C2: structured rendering of every acyclic chain produces exactly one
string per chain element (length at least 1), the i-th element being the
display string of the i-th error from the root, serialized as a literal
array of strings in root-to-deepest order — for both the borrowed view and
the owned snapshot. -/
theorem structured_render_elements (e : Err) :
    (ArrayErrorChain.new e).serializeSeq.elements = e.chain.map Err.display ∧
    (ArrayErrorChain.new e).serializeSeq.elements.length = e.chain.length ∧
    1 ≤ e.chain.length ∧
    (OwnedErrorChain.new e).serializeSeq.elements = e.chain.map Err.display := by
  refine ⟨array_serializeSeq_elements e, ?_, ?_, owned_new_serializeSeq_elements e⟩
  · rw [array_serializeSeq_elements e, List.length_map]
  · cases e <;> simp [Err.chain]

/-- C3: for every acyclic chain, the structured renderer's fallback emission
carries a string character-for-character identical to the inline renderer's
output for the same root error, under the caller's key. -/
theorem fallback_eq_inline (e : Err) (key : String) :
    (ArrayErrorChain.new e).serializeFallback key =
      Emission.arguments key ((InlineErrorChain.new e).render) ∧
    (ArrayErrorChain.new e).render = (InlineErrorChain.new e).render :=
  ⟨rfl, rfl⟩

/-- C4: round trip — constructing the owned snapshot and then rendering the
snapshot's display form yields the same string as inline rendering the live
error directly. -/
theorem owned_roundtrip_render (e : Err) :
    (OwnedErrorChain.new e).render = (InlineErrorChain.new e).render := by
  rw [owned_render_eq_specJoin, inline_render_eq_specJoin]
  show specJoin ": " (e.display :: ownedCollectCauses e []) = _
  rw [ownedCollectCauses_eq_chain e]

/-- C5: when the caller supplies no explicit key, every renderer's KV
emission — inline view, structured view, and owned snapshot — passes the
fixed implicit key `"error"` to the sink. -/
theorem kv_implicit_key (e : Err) :
    ((InlineErrorChain.new e).kv).key = "error" ∧
    ((ArrayErrorChain.new e).kv).key = "error" ∧
    ((OwnedErrorChain.new e).kv).key = "error" :=
  ⟨rfl, rfl, rfl⟩

/-- C6: owned-snapshot construction is a total function on every acyclic
chain (the model of never panicking), and on the minimal chain — a root
with no cause — its serialized output is the one-element sequence holding
just the root's display string. -/
theorem owned_new_total_min (e : Err) (d : String) :
    1 ≤ (OwnedErrorChain.new e).serializeSeq.elements.length ∧
    (OwnedErrorChain.new (Err.root d)).serializeSeq.elements = [d] ∧
    (OwnedErrorChain.new (Err.root d)).rest = [] := by
  refine ⟨?_, ?_, rfl⟩
  · rw [owned_serializeSeq_elements]; simp
  · rw [owned_serializeSeq_elements]; rfl

/-- C7: with the acyclicity (hence finiteness) precondition built into the
chain model, the chain walk terminates: iterating the `source` relation from
the root reaches `none` after exactly the chain's length of steps, the
walk's step count is finite and equals the chain length, the walk ends at
the first element with no cause, and the owned-snapshot construction visits
exactly the chain. -/
theorem chain_walk_terminates (e : Err) :
    sourceIterate (some e) e.chain.length = none ∧
    e.walkSteps = e.chain.length ∧
    (e.chain.getLastD e).source = none ∧
    (OwnedErrorChain.new e).rest.length + 1 = e.chain.length := by
  refine ⟨sourceIterate_chain_length e, walkSteps_eq_chain_length e,
    chain_getLastD_source e e, ?_⟩
  have h : (e.display :: ownedCollectCauses e []).length =
      (e.chain.map Err.display).length := by
    rw [ownedCollectCauses_eq_chain e]
  simpa [OwnedErrorChain.new] using h

/-- C8: rendering is deterministic and stateless — each renderer appends to
the sink buffer a string that depends only on the error, never on prior
sink contents, so two calls on the same unchanged error emit identical
output with no state carried between calls. -/
theorem render_deterministic (e : Err) (buf : String) :
    (InlineErrorChain.new e).fmt buf = buf ++ (InlineErrorChain.new e).render ∧
    (ArrayErrorChain.new e).fmt buf = buf ++ (ArrayErrorChain.new e).render ∧
    (OwnedErrorChain.new e).fmt buf = buf ++ (OwnedErrorChain.new e).render :=
  ⟨inline_fmt_eq e buf, inline_fmt_eq e buf, owned_fmt_eq _ buf⟩

/-- C9: the owned snapshot's structured serialization yields the same
sequence of strings as the borrowed view's, so `to_sendable` preserves the
structured array output. -/
theorem owned_eq_array_serialization (e : Err) :
    (OwnedErrorChain.new e).serializeSeq.elements =
      (ArrayErrorChain.new e).serializeSeq.elements ∧
    ((ArrayErrorChain.new e).toSendable).serializeSeq.elements =
      (ArrayErrorChain.new e).serializeSeq.elements := by
  have h := (owned_new_serializeSeq_elements e).trans
    (array_serializeSeq_elements e).symm
  exact ⟨h, h⟩

/-- C10: the `": "` separator is inserted unconditionally between every pair
of adjacent chain elements, even when a display string is empty: every
two-element chain renders as root display, `": "`, cause display, so a
chain whose root displays as the empty string and whose single cause
displays as "x" renders inline as ": x", not "x". -/
theorem separator_unconditional :
    (∀ a b : String,
      (InlineErrorChain.new (.cons a (.root b))).render = a ++ ": " ++ b ∧
      (OwnedErrorChain.new (.cons a (.root b))).render = a ++ ": " ++ b) ∧
    (InlineErrorChain.new (.cons "" (.root "x"))).render = ": x" ∧
    (OwnedErrorChain.new (.cons "" (.root "x"))).render = ": x" ∧
    (InlineErrorChain.new (.cons "" (.root "x"))).render ≠ "x" :=
  ⟨fun _ _ => ⟨rfl, rfl⟩, by decide, by decide, by decide⟩

-- Scratch checks of the embedding against the repository's unit tests.
example : (InlineErrorChain.new (.root "test error")).render = "test error" := by decide
example :
    (InlineErrorChain.new (.cons "error b" (.cons "error a" (.root "test error")))).render =
      "error b: error a: test error" := by decide
example :
    (ArrayErrorChain.new (.cons "error b" (.cons "error a" (.root "test error")))).serializeSeq.elements =
      ["error b", "error a", "test error"] := by decide
example :
    (OwnedErrorChain.new (.cons "error a" (.root "test error"))).serializeSeq.elements =
      ["error a", "test error"] := by decide
example :
    (OwnedErrorChain.new (.cons "error b" (.cons "error a" (.root "test error")))).render =
      "error b: error a: test error" := by decide
example : (InlineErrorChain.new (.cons "" (.root "x"))).render = ": x" := by decide
